import Mathlib

/-!
Verification development for the `ui-agentic` repository.

We give a shallow embedding, in Lean 4, of the pure algorithmic core of the
application: the heuristic query router (`app/agents/router_agent.py`), the
section-aware chunker (`app/ingestion/chunker.py`), the FAISS-backed vector
store (`app/ingestion/vector_store.py`), the re-ranker and retrieval agent
(`app/utils/reranker.py`, `app/agents/chat/retrieval_rerank_agent.py`), the
chat graph nodes (`app/agents/graphs/chat_graph.py`) and the citation
extractor (`app/agents/chat/qa_agent.py`).

Python strings are modelled by Lean `String` (character based, which agrees
with Python's code-point based slicing and lowercasing on the ASCII inputs
the code manipulates); Python floats are modelled by `ℚ`; Python `None` by
`Option`; Python dicts that preserve insertion order by association lists.
External collaborators (the embedding model, the FAISS L2-normalisation, the
cross-encoder scorer, the registered tools, the recursive text splitter) are
parameters of the definitions that use them, so every theorem below holds
for an arbitrary behaviour of those collaborators.
-/

namespace UIAgentic

/-! ## Python string primitives -/

/-- Python `\s` on the ASCII range: space, tab, newline, carriage return,
form feed and vertical tab.  (The source only ever feeds ASCII text to the
regexes in question.) -/
def pyIsSpace (c : Char) : Bool :=
  c = ' ' || c = '\t' || c = '\n' || c = '\r' || c = '\x0c' || c = '\x0b'

/-- Python `\w`: letters, digits and underscore (ASCII range). -/
def isWordChar (c : Char) : Bool :=
  c.isAlpha || c.isDigit || c = '_'

/-- Python `str.lower()` (ASCII). -/
def pyLower (s : String) : String :=
  String.mk (s.data.map Char.toLower)

/-- Python `str.upper()` (ASCII). -/
def pyUpper (s : String) : String :=
  String.mk (s.data.map Char.toUpper)

/-- Python `str.strip()`: drop leading and trailing whitespace. -/
def pyStripChars (cs : List Char) : List Char :=
  ((cs.dropWhile pyIsSpace).reverse.dropWhile pyIsSpace).reverse

/-- Python `str.strip()` on `String`. -/
def pyStrip (s : String) : String :=
  String.mk (pyStripChars s.data)

/-- Substring test on character lists (Python `needle in haystack`). -/
def containsSub (needle : List Char) : List Char → Bool
  | [] => needle.isEmpty
  | c :: cs => needle.isPrefixOf (c :: cs) || containsSub needle cs

/-- Python `needle in haystack` for strings. -/
def strContains (haystack needle : String) : Bool :=
  containsSub needle.data haystack.data

/-- Value of a run of decimal digits (Python `int` on a `\d+` capture). -/
def digitsToNat (cs : List Char) : Nat :=
  cs.foldl (fun n c => 10 * n + (c.toNat - 48)) 0

/-- Numeric value of a captured reference string. -/
def refToNat (s : String) : Nat :=
  digitsToNat s.data

/-! ## Router agent (`app/agents/router_agent.py`) -/

/-- A JSON-ish parameter value appearing in `tool_params`. -/
inductive ParamValue where
  | str : String → ParamValue
  | int : Int → ParamValue
  | null : ParamValue
deriving DecidableEq, Repr

/-- The routing decision dictionary returned by the router.  `tool_params`
is an insertion-ordered dictionary, modelled as an association list. -/
structure RoutingDecision where
  route : String
  tool_name : Option String
  tool_params : Option (List (String × ParamValue))
  reasoning : String
deriving DecidableEq, Repr

/-- `RouterAgent._extract_year`: first `\b(19\d\d|20\d\d)\b` in the query. -/
def yearHere : List Char → Option Nat
  | c1 :: c2 :: c3 :: c4 :: rest =>
    if ((c1 = '1' && c2 = '9') || (c1 = '2' && c2 = '0')) && c3.isDigit && c4.isDigit
        && (match rest with | [] => true | r :: _ => !isWordChar r) then
      some (digitsToNat [c1, c2, c3, c4])
    else
      none
  | _ => none

/-- Scan for the leftmost year match, tracking the previous character for
the leading word boundary. -/
def extractYearAux : Option Char → List Char → Option Nat
  | _, [] => none
  | prev, c :: cs =>
    if prev.elim true (fun p => !isWordChar p) then
      match yearHere (c :: cs) with
      | some y => some y
      | none => extractYearAux (some c) cs
    else
      extractYearAux (some c) cs

/-- `RouterAgent._extract_year` on a query string. -/
def extractYear (query : String) : Option Nat :=
  extractYearAux none query.data

/-- The ordered country map of `RouterAgent._extract_country`. -/
def countryMap : List (String × String) :=
  [("usa", "US"), ("united states", "US"), ("america", "US"), ("us", "US"),
   ("india", "IN"), ("indian", "IN"), ("in", "IN"),
   ("china", "CN"), ("chinese", "CN"), ("cn", "CN"),
   ("uk", "GB"), ("united kingdom", "GB"), ("britain", "GB"), ("gb", "GB")]

/-- `RouterAgent._extract_country`: first map key that is a substring of the
lowercased query, defaulting to `"US"`. -/
def extractCountry (query : String) : String :=
  let ql := pyLower query
  match countryMap.find? (fun kv => strContains ql kv.1) with
  | some kv => kv.2
  | none => "US"

/-- Split a character list into maximal runs of word characters
(helper for `_extract_symbol`).  `acc` is the reversed current run. -/
def wordRunsAux (acc : List Char) : List Char → List (List Char)
  | [] => if acc.isEmpty then [] else [acc.reverse]
  | c :: cs =>
    if isWordChar c then wordRunsAux (c :: acc) cs
    else if acc.isEmpty then wordRunsAux [] cs
    else acc.reverse :: wordRunsAux [] cs

/-- Maximal word-character runs of a character list. -/
def wordRuns (cs : List Char) : List (List Char) :=
  wordRunsAux [] cs

/-- `RouterAgent._extract_symbol`: `re.search(r'\b[A-Z]{2,5}\b', query.upper())`.
A match must cover a whole maximal word run (word boundaries on both sides),
so it is the first maximal word run of the uppercased query that consists of
2 to 5 letters. -/
def extractSymbol (query : String) : Option String :=
  match (wordRuns (pyUpper query).data).find?
      (fun run => run.all Char.isUpper && decide (2 ≤ run.length) && decide (run.length ≤ 5)) with
  | some run => some (String.mk run)
  | none => none

/-- `year` entry of the strong-GDP branch: Python stores the year even when
extraction returned `None`. -/
def yearParam : Option Nat → ParamValue
  | some y => .int y
  | none => .null

/-- `symbol` entry of the finance branches. -/
def symbolParam : Option String → ParamValue
  | some s => .str s
  | none => .null

def strongToolIndicators : List String :=
  ["gdp", "economic indicator", "stock price", "current price", "market data"]

def toolKeywords : List String :=
  ["current", "today", "latest", "now", "real-time",
   "stock", "price", "market", "gdp", "economic", "economy",
   "search", "find", "what is", "tell me about"]

def ragKeywords : List String :=
  ["document", "report", "in the document", "from the document",
   "kpi", "revenue", "profit", "npa", "crar", "car"]

/-- `RouterAgent._heuristic_route`, translated branch for branch.  The two
early returns inside the strong-indicator block become the first two cases;
when neither of their sub-conditions holds Python falls through to the
keyword-scoring logic, exactly as here. -/
def heuristicRoute (query : String) (has_context : Bool) : RoutingDecision :=
  let ql := pyLower query
  if strongToolIndicators.any (fun s => strContains ql s) &&
      ["gdp", "economic", "country", "economy"].any (fun s => strContains ql s) then
    { route := "tool", tool_name := some "gdp",
      tool_params := some [("action", .str "gdp"),
                           ("country", .str (extractCountry query)),
                           ("year", yearParam (extractYear query))],
      reasoning := "Query about GDP/economic data" }
  else if strongToolIndicators.any (fun s => strContains ql s) &&
      ["stock", "price", "market", "finance"].any (fun s => strContains ql s) then
    { route := "tool", tool_name := some "finance",
      tool_params := some [("action", .str "stock_info"),
                           ("symbol", symbolParam (extractSymbol query))],
      reasoning := "Query about stock/market data" }
  else
    let tool_score := toolKeywords.countP (fun s => strContains ql s)
    let rag_score := ragKeywords.countP (fun s => strContains ql s)
    if tool_score > rag_score && tool_score > 0 then
      if ["stock", "price", "market", "finance"].any (fun s => strContains ql s) then
        { route := "tool", tool_name := some "finance",
          tool_params := some [("action", .str "stock_info"),
                               ("symbol", symbolParam (extractSymbol query))],
          reasoning := "Query about stock/market data" }
      else if ["gdp", "economic", "country"].any (fun s => strContains ql s) then
        { route := "tool", tool_name := some "gdp",
          tool_params := some [("action", .str "gdp"),
                               ("country", .str (extractCountry query))],
          reasoning := "Query about GDP/economic data" }
      else
        { route := "tool", tool_name := some "web_search",
          tool_params := some [("query", .str query)],
          reasoning := "Query needs web search" }
    else if has_context && (rag_score > 0 || tool_score = 0) then
      if ["gdp", "economic", "economy", "country"].any (fun s => strContains ql s) then
        { route := "tool", tool_name := some "gdp",
          tool_params := some [("action", .str "gdp"),
                               ("country", .str (extractCountry query))],
          reasoning := "Query about GDP/economic data (overrides document context)" }
      else
        { route := "rag", tool_name := none, tool_params := none,
          reasoning := "Query about document content" }
    else
      if ["gdp", "economic", "economy", "country"].any (fun s => strContains ql s) then
        { route := "tool", tool_name := some "gdp",
          tool_params := some [("action", .str "gdp"),
                               ("country", .str (extractCountry query))],
          reasoning := "Query about GDP/economic data" }
      else
        { route := "tool", tool_name := some "web_search",
          tool_params := some [("query", .str query)],
          reasoning := "General query, no document context" }

/-- Dictionary lookup in an insertion-ordered `tool_params` mapping. -/
def lookupParam (ps : List (String × ParamValue)) (k : String) : Option ParamValue :=
  (ps.find? (fun kv => kv.1 = k)).map (fun kv => kv.2)

/-- Scenario A's query. -/
def gdpIndiaQuery : String := "What is the GDP of India in 2023?"

/-- C2 counterexample: on Scenario A's query the heuristic route does reach
the GDP branch, but its `tool_params` dictionary is
`{action: "gdp", country: "IN", year: 2023}`, which differs (at the key
`"action"`) from the `{country: "IN", year: 2023}` the claim states. -/
theorem heuristic_gdp_india_params_have_action :
    lookupParam ((heuristicRoute gdpIndiaQuery false).tool_params.getD []) "action" =
      some (ParamValue.str "gdp") ∧
    lookupParam [("country", ParamValue.str "IN"), ("year", ParamValue.int 2023)] "action" = none ∧
    (heuristicRoute gdpIndiaQuery false).tool_params ≠
      some [("country", ParamValue.str "IN"), ("year", ParamValue.int 2023)] := by
  refine ⟨rfl, rfl, ?_⟩
  decide

/-- C2 (amended): the query "What is the GDP of India in 2023?" with no
document context routes to the `gdp` tool with parameters
`{action: "gdp", country: "IN", year: 2023}`. -/
theorem heuristic_gdp_india_decision :
    heuristicRoute gdpIndiaQuery false =
      { route := "tool", tool_name := some "gdp",
        tool_params := some [("action", ParamValue.str "gdp"),
                             ("country", ParamValue.str "IN"),
                             ("year", ParamValue.int 2023)],
        reasoning := "Query about GDP/economic data" } := by
  rfl

/-- C8: the heuristic routing fallback is deterministic — two invocations on
the same query and context flag agree on route, tool name, tool parameters
and reasoning. -/
theorem heuristic_route_deterministic (q : String) (c : Bool)
    (d₁ d₂ : RoutingDecision)
    (h₁ : heuristicRoute q c = d₁) (h₂ : heuristicRoute q c = d₂) :
    d₁.route = d₂.route ∧ d₁.tool_name = d₂.tool_name ∧
    d₁.tool_params = d₂.tool_params ∧ d₁.reasoning = d₂.reasoning := by
  subst h₁; subst h₂; exact ⟨rfl, rfl, rfl, rfl⟩

/-- Witness for C8 at a concrete query. -/
theorem heuristic_route_deterministic_witness :
    (heuristicRoute "hello" true).route = (heuristicRoute "hello" true).route ∧
    (heuristicRoute "hello" true).tool_name = (heuristicRoute "hello" true).tool_name ∧
    (heuristicRoute "hello" true).tool_params = (heuristicRoute "hello" true).tool_params ∧
    (heuristicRoute "hello" true).reasoning = (heuristicRoute "hello" true).reasoning :=
  heuristic_route_deterministic "hello" true _ _ rfl rfl

/-- C9: the heuristic fallback never returns the route `"both"`; its route is
`"rag"` or `"tool"`; on the tool route the tool is `gdp`, `finance` or
`web_search` with a non-null parameter mapping; on the rag route the tool
name is `None`. -/
theorem heuristic_route_range (q : String) (c : Bool) :
    ((heuristicRoute q c).route = "rag" ∨ (heuristicRoute q c).route = "tool") ∧
    (heuristicRoute q c).route ≠ "both" ∧
    ((heuristicRoute q c).route = "tool" →
      ((heuristicRoute q c).tool_name = some "gdp" ∨
       (heuristicRoute q c).tool_name = some "finance" ∨
       (heuristicRoute q c).tool_name = some "web_search") ∧
      (heuristicRoute q c).tool_params ≠ none) ∧
    ((heuristicRoute q c).route = "rag" → (heuristicRoute q c).tool_name = none) := by
  simp only [heuristicRoute]
  repeat' split
  all_goals try (exact ⟨Or.inr rfl, by simp, fun h => ⟨by simp, by simp⟩, by simp⟩)
  all_goals exact ⟨Or.inl rfl, by simp, fun h => by simp at h, fun h => rfl⟩

/-- Witness for C9 at a concrete query and flag. -/
theorem heuristic_route_range_witness :
    (((heuristicRoute "hello" false).route = "rag" ∨
      (heuristicRoute "hello" false).route = "tool") ∧
     (heuristicRoute "hello" false).route ≠ "both" ∧
     ((heuristicRoute "hello" false).route = "tool" →
       ((heuristicRoute "hello" false).tool_name = some "gdp" ∨
        (heuristicRoute "hello" false).tool_name = some "finance" ∨
        (heuristicRoute "hello" false).tool_name = some "web_search") ∧
       (heuristicRoute "hello" false).tool_params ≠ none) ∧
     ((heuristicRoute "hello" false).route = "rag" →
       (heuristicRoute "hello" false).tool_name = none)) :=
  heuristic_route_range "hello" false

/-! ## Section-aware chunker (`app/ingestion/chunker.py`) -/

/-- A section detected by `SectionAwareChunker._detect_sections`.  The Python
dict's `end` key is called `stop` here because `end` is a Lean keyword. -/
structure PySection where
  title : String
  start : Nat
  stop : Nat
deriving DecidableEq, Repr

/-- Pattern `^\d+\.\s+[A-Z][^\n]+`: numbered section header.  All regex
quantifier choices are forced here (each greedy token is followed by a token
disjoint from it), so the match test is a direct left-to-right scan. -/
def matchNumbered (cs : List Char) : Bool :=
  let ds := cs.takeWhile Char.isDigit
  let r1 := cs.drop ds.length
  !ds.isEmpty &&
    match r1 with
    | '.' :: r2 =>
      let ws := r2.takeWhile pyIsSpace
      let r3 := r2.drop ws.length
      !ws.isEmpty &&
        match r3 with
        | c :: r4 => c.isUpper && !r4.isEmpty
        | [] => false
    | _ => false

/-- Pattern `^[A-Z][A-Z\s]{5,}$`: ALL CAPS header — an uppercase letter
followed by at least five characters, every remaining character an uppercase
letter or whitespace (the `$` anchor forces the class to cover the rest of
the line). -/
def matchAllCaps (cs : List Char) : Bool :=
  match cs with
  | c :: rest =>
    c.isUpper && decide (5 ≤ rest.length) &&
      rest.all (fun d => d.isUpper || pyIsSpace d)
  | [] => false

/-- Loop of the title-case pattern: after a `Word`, accept `:` or further
`\s+[A-Z][a-z]+` groups.  `fuel` bounds the recursion; each step consumes at
least three characters, so `cs.length` is ample fuel. -/
def titleTail : Nat → List Char → Bool
  | _, ':' :: _ => true
  | 0, _ => false
  | fuel + 1, cs =>
    let ws := cs.takeWhile pyIsSpace
    let r1 := cs.drop ws.length
    !ws.isEmpty &&
      match r1 with
      | c :: r2 =>
        c.isUpper &&
          (let ls := r2.takeWhile Char.isLower
           !ls.isEmpty && titleTail fuel (r2.drop ls.length))
      | [] => false

/-- Pattern `^[A-Z][a-z]+(?:\s+[A-Z][a-z]+)*:`: Title Case header ending in
a colon. -/
def matchTitleColon (cs : List Char) : Bool :=
  match cs with
  | c :: r1 =>
    c.isUpper &&
      (let ls := r1.takeWhile Char.isLower
       !ls.isEmpty && titleTail r1.length (r1.drop ls.length))
  | [] => false

/-- Pattern `^#{1,3}\s+.+`: markdown header.  With backtracking, `\s+` may
surrender all but one whitespace character to `.+` (which matches anything
but a newline, and split lines contain no newline), so the test is: one to
three leading `#`, then a whitespace character, then at least one further
character. -/
def matchMarkdown (cs : List Char) : Bool :=
  let hs := cs.takeWhile (fun c => c = '#')
  let rest := cs.drop hs.length
  decide (1 ≤ hs.length) && decide (hs.length ≤ 3) &&
    match rest with
    | a :: _ :: _ => pyIsSpace a
    | _ => false

/-- Python `text.split("\n")` (structural, so that goals about concrete
documents evaluate inside the kernel).  `acc` is the reversed current
line. -/
def splitLinesAux (acc : List Char) : List Char → List String
  | [] => [String.mk acc.reverse]
  | c :: cs =>
    if c = '\n' then String.mk acc.reverse :: splitLinesAux [] cs
    else splitLinesAux (c :: acc) cs

/-- Python `text.split("\n")`. -/
def pySplitNL (s : String) : List String :=
  splitLinesAux [] s.data

/-- `re.match(pattern, line.strip())` against the four section patterns. -/
def isSectionHeader (line : String) : Bool :=
  let cs := (pyStrip line).data
  matchNumbered cs || matchAllCaps cs || matchTitleColon cs || matchMarkdown cs

/-- The loop of `_detect_sections`: walk the numbered lines; on a header
line, close the current section at the header's index — but only when its
`end` field is positive, which silently discards the initial
`"Introduction"` section (whose `end` is 0) — and open a new section running
to the last line. -/
def detectLoop (numLines : Nat) :
    List (Nat × String) → PySection → List PySection → List PySection × PySection
  | [], cur, acc => (acc, cur)
  | (i, line) :: rest, cur, acc =>
    if isSectionHeader line then
      let acc' := if cur.stop > 0 then acc ++ [{ cur with stop := i }] else acc
      detectLoop numLines rest { title := pyStrip line, start := i, stop := numLines - 1 } acc'
    else
      detectLoop numLines rest cur acc

/-- `SectionAwareChunker._detect_sections`. -/
def detect_sections (text : String) : List PySection :=
  let lines := pySplitNL text
  let n := lines.length
  let (acc, cur) := detectLoop n lines.enum { title := "Introduction", start := 0, stop := 0 } []
  let cur := if cur.stop = 0 then { cur with stop := n - 1 } else cur
  let sections := acc ++ [cur]
  if sections.isEmpty then [{ title := "Document", start := 0, stop := n - 1 }] else sections

/-- `"\n".join(lines[section.start : section.stop + 1])`. -/
def sectionSlice (lines : List String) (sec : PySection) : String :=
  String.intercalate "\n" ((lines.drop sec.start).take (sec.stop + 1 - sec.start))

/-- The per-section texts handed to the recursive splitter by
`_chunk_with_sections`. -/
def sectionTexts (text : String) : List String :=
  let lines := pySplitNL text
  (detect_sections text).map (sectionSlice lines)

/-- A chunk produced by `_chunk_with_sections` (page content plus the
section metadata it attaches). -/
structure Chunk where
  page_content : String
  sectionTitle : String
  section_start : Nat
  section_stop : Nat
deriving DecidableEq, Repr

/-- `SectionAwareChunker._chunk_with_sections`, parameterised by the
`RecursiveCharacterTextSplitter.split_text` collaborator. -/
def chunk_with_sections (splitText : String → List String) (text : String) : List Chunk :=
  let lines := pySplitNL text
  (detect_sections text).flatMap (fun sec =>
    (splitText (sectionSlice lines sec)).map (fun t =>
      { page_content := t, sectionTitle := sec.title,
        section_start := sec.start, section_stop := sec.stop }))

/-- A document exhibiting the C1 failure: one line of leading text, then a
line matching the numbered-header pattern, then a body line. -/
def leadingTextDoc : String := "Intro text\n1. Section One\nBody"

/-- C1 (code bug): on `leadingTextDoc` the detector returns a single section
starting at line 1, so the leading line `"Intro text"` belongs to no
section; every chunk text produced by `_chunk_with_sections` — under any
behaviour of the text splitter — is drawn from `"1. Section One\nBody"`
alone, so the document's leading line appears in no chunk and concatenating
chunk texts cannot reconstruct the document.  The `"Introduction"` section
that the spec says absorbs the leading text is discarded by the
`current_section["end"] > 0` guard, because its `end` is still 0 when the
first header closes it. -/
theorem chunker_drops_text_before_first_header :
    detect_sections leadingTextDoc = [{ title := "1. Section One", start := 1, stop := 2 }] ∧
    sectionTexts leadingTextDoc = ["1. Section One\nBody"] ∧
    (∀ splitText : String → List String,
      (chunk_with_sections splitText leadingTextDoc).map Chunk.page_content =
        splitText "1. Section One\nBody") ∧
    (detect_sections leadingTextDoc).all (fun sec => decide (1 ≤ sec.start)) = true := by
  refine ⟨by decide, by decide, ?_, by decide⟩
  intro splitText
  have h1 : detect_sections leadingTextDoc =
      [{ title := "1. Section One", start := 1, stop := 2 }] := by decide
  have h2 : sectionSlice (pySplitNL leadingTextDoc)
      { title := "1. Section One", start := 1, stop := 2 } = "1. Section One\nBody" := by decide
  simp only [chunk_with_sections, h1, h2, List.flatMap_cons, List.flatMap_nil,
    List.append_nil, List.map_map]
  generalize splitText "1. Section One\nBody" = l
  induction l with
  | nil => rfl
  | cons a t ih => simp only [List.map_cons, Function.comp_apply] at ih ⊢; rw [ih]

/-! ## FAISS vector store (`app/ingestion/vector_store.py`) -/

/-- A retrievable document (LangChain `Document`): page content plus a
string-valued metadata dictionary. -/
structure Doc where
  page_content : String
  metadata : List (String × String)
deriving DecidableEq, Repr

/-- Python `doc.metadata.get(key, default)`. -/
def metadataGet (m : List (String × String)) (key default : String) : String :=
  match m.find? (fun kv => kv.1 = key) with
  | some kv => kv.2
  | none => default

/-- A vector: a row of a numpy embedding matrix, floats modelled by `ℚ`. -/
abbrev Vec := List ℚ

/-- A numpy embedding matrix: its rows and its declared second shape
component (`embeddings.shape[1]`, the width faiss checks). -/
structure Matrix where
  data : List Vec
  ncols : Nat
deriving DecidableEq, Repr

/-- A `faiss.IndexFlatIP`: fixed vector dimensionality `d` plus the stored
(already normalised) vectors. -/
structure FaissIndex where
  d : Nat
  vectors : List Vec
deriving DecidableEq, Repr

/-- The mutable state of a `FAISSVectorStore`: its (advisory) dimension, the
optional faiss index, and the parallel document list. -/
structure VectorStoreState where
  dimension : Nat
  index : Option FaissIndex
  documents : List Doc
deriving DecidableEq, Repr

/-- Errors surfaced by `add_documents`: the explicit `ValueError` for a
document/embedding count mismatch, and the dimensionality failure raised by
`faiss.Index.add` when the batch width differs from the index's `d`. -/
inductive AddError where
  | countMismatch
  | dimensionMismatch
deriving DecidableEq, Repr

/-- `FAISSVectorStore.create_index`: the store's dimension is updated to the
batch's width (with only a warning on mismatch) and a fresh flat
inner-product index is filled with the L2-normalised batch.  `normalize` is
the `faiss.normalize_L2` collaborator (a row-wise operation, so the shape is
unchanged). -/
def create_index (normalize : List Vec → List Vec) (s : VectorStoreState)
    (emb : Matrix) : VectorStoreState :=
  { s with dimension := emb.ncols,
           index := some { d := emb.ncols, vectors := normalize emb.data } }

/-- `FAISSVectorStore.add_documents` in state-passing form: the returned
state is the store after the call, the `Option AddError` the exception, if
any, that the call raised.  Both failure points in the Python method (the
explicit `ValueError` and `faiss.Index.add`'s dimensionality assertion) come
before any mutation of `self`, so a failing call returns the input state. -/
def add_documents (normalize : List Vec → List Vec) (s : VectorStoreState)
    (docs : List Doc) (emb : Matrix) : VectorStoreState × Option AddError :=
  if docs.length ≠ emb.data.length then
    (s, some .countMismatch)
  else
    match s.index with
    | none =>
      let s' := create_index normalize s emb
      ({ s' with documents := s.documents ++ docs }, none)
    | some idx =>
      if emb.ncols ≠ idx.d then
        (s, some .dimensionMismatch)
      else
        ({ s with index := some { d := idx.d, vectors := idx.vectors ++ normalize emb.data },
                  documents := s.documents ++ docs }, none)

/-- Inner product of two vectors. -/
def dot (u v : Vec) : ℚ :=
  (List.zipWith (fun a b => a * b) u v).sum

/-- Insert into a list ranked by decreasing similarity (index ascending on
ties): the order in which `faiss.IndexFlatIP.search` reports results. -/
def insertRanked (p : Nat × ℚ) : List (Nat × ℚ) → List (Nat × ℚ)
  | [] => [p]
  | q :: qs =>
    if p.2 > q.2 ∨ (p.2 = q.2 ∧ p.1 < q.1) then p :: q :: qs
    else q :: insertRanked p qs

/-- Rank `(index, similarity)` pairs by decreasing similarity. -/
def rankDesc (l : List (Nat × ℚ)) : List (Nat × ℚ) :=
  l.foldr insertRanked []

/-- `FAISSVectorStore.search` (with no metadata filter, the only way the
repository calls it): empty result on an empty store, otherwise the top
`min k ntotal` stored vectors by inner product with the normalised query,
mapped through the parallel document list, skipping out-of-range ids. -/
def search (normalize : Vec → Vec) (s : VectorStoreState)
    (query_embedding : Vec) (k : Nat) : List (Doc × ℚ) :=
  match s.index with
  | none => []
  | some idx =>
    if s.documents.length = 0 then []
    else
      let q := normalize query_embedding
      let kk := min k idx.vectors.length
      let sims := idx.vectors.map (fun v => dot q v)
      ((rankDesc sims.enum).take kk).filterMap (fun p =>
        match s.documents.get? p.1 with
        | some d => some (d, p.2)
        | none => none)

/-- The two files written by `save` under one prefix: the serialised faiss
index and the pickled document list. -/
structure DiskEntry where
  index : FaissIndex
  documents : List Doc
deriving DecidableEq, Repr

/-- The saved-stores directory: an insertion-ordered map from file prefix to
saved entry (newest first, as `lookupDisk` takes the first hit). -/
abbrev Disk := List (String × DiskEntry)

def lookupDisk (disk : Disk) (key : String) : Option DiskEntry :=
  match disk.find? (fun kv => kv.1 = key) with
  | some kv => some kv.2
  | none => none

/-- The default prefix `self.index_path.stem` (from
`FAISS_INDEX_PATH = ./vector_store/faiss_index`). -/
def defaultStem : String := "faiss_index"

/-- Errors raised by `save`/`load`. -/
inductive StoreIOError where
  | noIndexToSave
  | filesNotFound
deriving DecidableEq, Repr

/-- `FAISSVectorStore.save`: refuse when there is no index, else write the
index and the documents under the (default or given) prefix. -/
def save (s : VectorStoreState) (disk : Disk) (fileTag : Option String) :
    Except StoreIOError Disk :=
  match s.index with
  | none => .error .noIndexToSave
  | some idx => .ok (((fileTag.getD defaultStem), ⟨idx, s.documents⟩) :: disk)

/-- `FAISSVectorStore.load`: fail when the files are missing, else replace
the store's index and documents with the saved ones (the `dimension` field
is left as it was). -/
def load (s : VectorStoreState) (disk : Disk) (fileTag : Option String) :
    Except StoreIOError VectorStoreState :=
  match lookupDisk disk (fileTag.getD defaultStem) with
  | none => .error .filesNotFound
  | some e => .ok { s with index := some e.index, documents := e.documents }

/-- `FAISSVectorStore.clear`. -/
def clear (s : VectorStoreState) : VectorStoreState :=
  { s with index := none, documents := [] }

/-- C3: starting from a store with no index, a first `add_documents` with a
384-wide batch succeeds and fixes the index dimension; a second call with a
512-wide batch fails with the dimension-mismatch error and returns the store
exactly as the first call left it — the first batch of documents is still
stored, and every search gives the same results as before the failed
call. -/
theorem add_documents_dimension_mismatch
    (normalize : List Vec → List Vec) (s₀ : VectorStoreState)
    (docs₁ docs₂ : List Doc) (emb₁ emb₂ : Matrix)
    (h₀ : s₀.index = none)
    (hc₁ : docs₁.length = emb₁.data.length) (hd₁ : emb₁.ncols = 384)
    (hc₂ : docs₂.length = emb₂.data.length) (hd₂ : emb₂.ncols = 512) :
    (add_documents normalize s₀ docs₁ emb₁).2 = none ∧
    (add_documents normalize s₀ docs₁ emb₁).1.documents = s₀.documents ++ docs₁ ∧
    (add_documents normalize s₀ docs₁ emb₁).1.index =
      some { d := 384, vectors := normalize emb₁.data } ∧
    add_documents normalize (add_documents normalize s₀ docs₁ emb₁).1 docs₂ emb₂ =
      ((add_documents normalize s₀ docs₁ emb₁).1, some AddError.dimensionMismatch) ∧
    (∀ nq q k,
      search nq (add_documents normalize (add_documents normalize s₀ docs₁ emb₁).1 docs₂ emb₂).1 q k =
        search nq (add_documents normalize s₀ docs₁ emb₁).1 q k) := by
  have h₁ : add_documents normalize s₀ docs₁ emb₁ =
      ({ s₀ with dimension := emb₁.ncols,
                 index := some { d := emb₁.ncols, vectors := normalize emb₁.data },
                 documents := s₀.documents ++ docs₁ }, none) := by
    simp [add_documents, h₀, hc₁, create_index]
  have h₂ : add_documents normalize (add_documents normalize s₀ docs₁ emb₁).1 docs₂ emb₂ =
      ((add_documents normalize s₀ docs₁ emb₁).1, some AddError.dimensionMismatch) := by
    rw [h₁]
    simp [add_documents, hc₂, hd₁, hd₂]
  refine ⟨by rw [h₁], by rw [h₁], by rw [h₁, hd₁], h₂, fun nq q k => by rw [h₂]⟩

/-- Witness for C3: a one-document 384-wide batch followed by a one-document
512-wide batch. -/
theorem add_documents_dimension_mismatch_witness :
    ((add_documents id { dimension := 384, index := none, documents := [] }
        [{ page_content := "alpha", metadata := [] }]
        { data := [List.replicate 384 (1 : ℚ)], ncols := 384 }).2 = none ∧
     (add_documents id { dimension := 384, index := none, documents := [] }
        [{ page_content := "alpha", metadata := [] }]
        { data := [List.replicate 384 (1 : ℚ)], ncols := 384 }).1.documents =
       ([] : List Doc) ++ [{ page_content := "alpha", metadata := [] }] ∧
     (add_documents id { dimension := 384, index := none, documents := [] }
        [{ page_content := "alpha", metadata := [] }]
        { data := [List.replicate 384 (1 : ℚ)], ncols := 384 }).1.index =
       some { d := 384, vectors := id [List.replicate 384 (1 : ℚ)] } ∧
     add_documents id
        (add_documents id { dimension := 384, index := none, documents := [] }
          [{ page_content := "alpha", metadata := [] }]
          { data := [List.replicate 384 (1 : ℚ)], ncols := 384 }).1
        [{ page_content := "beta", metadata := [] }]
        { data := [List.replicate 512 (1 : ℚ)], ncols := 512 } =
       ((add_documents id { dimension := 384, index := none, documents := [] }
          [{ page_content := "alpha", metadata := [] }]
          { data := [List.replicate 384 (1 : ℚ)], ncols := 384 }).1,
        some AddError.dimensionMismatch) ∧
     (∀ nq q k,
       search nq (add_documents id
          (add_documents id { dimension := 384, index := none, documents := [] }
            [{ page_content := "alpha", metadata := [] }]
            { data := [List.replicate 384 (1 : ℚ)], ncols := 384 }).1
          [{ page_content := "beta", metadata := [] }]
          { data := [List.replicate 512 (1 : ℚ)], ncols := 512 }).1 q k =
         search nq (add_documents id { dimension := 384, index := none, documents := [] }
            [{ page_content := "alpha", metadata := [] }]
            { data := [List.replicate 384 (1 : ℚ)], ncols := 384 }).1 q k)) :=
  add_documents_dimension_mismatch id _ _ _ _ _ rfl rfl rfl rfl rfl

/-- C5: if the store has an index, `save(tag)`, `clear()`, `load(tag)`
succeeds and reproduces a store whose `search` results for every fixed query
vector and `k` are identical to the original's (indeed the reloaded state is
the original state). -/
theorem save_clear_load_round_trip
    (s : VectorStoreState) (disk : Disk) (tag : Option String)
    (idx : FaissIndex) (h : s.index = some idx) :
    ∃ disk', save s disk tag = .ok disk' ∧
      ∃ s', load (clear s) disk' tag = .ok s' ∧
        (∀ normalize q k, search normalize s' q k = search normalize s q k) := by
  obtain ⟨dim, ind, docsS⟩ := s
  obtain rfl : ind = some idx := h
  refine ⟨(tag.getD defaultStem, ⟨idx, docsS⟩) :: disk, rfl,
    { dimension := dim, index := some idx, documents := docsS }, ?_, fun n q k => rfl⟩
  simp [load, clear, lookupDisk, List.find?]

/-- Witness for C5 on a concrete one-document store. -/
theorem save_clear_load_round_trip_witness :
    ∃ disk', save { dimension := 2, index := some { d := 2, vectors := [[1, 0]] },
                    documents := [{ page_content := "alpha", metadata := [] }] } [] (some "run1") =
        .ok disk' ∧
      ∃ s', load (clear { dimension := 2, index := some { d := 2, vectors := [[1, 0]] },
                          documents := [{ page_content := "alpha", metadata := [] }] })
              disk' (some "run1") = .ok s' ∧
        (∀ normalize q k, search normalize s' q k =
          search normalize { dimension := 2, index := some { d := 2, vectors := [[1, 0]] },
                             documents := [{ page_content := "alpha", metadata := [] }] } q k) :=
  save_clear_load_round_trip _ [] (some "run1") { d := 2, vectors := [[1, 0]] } rfl

/-! ## Re-ranker (`app/utils/reranker.py`) and retrieval agent
(`app/agents/chat/retrieval_rerank_agent.py`) -/

/-- `config.retrieval.top_k` (`RETRIEVAL_TOP_K`, default 20). -/
def RETRIEVAL_TOP_K : Nat := 20

/-- `config.retrieval.rerank_top_k` (`RERANK_TOP_K`, default 5). -/
def RERANK_TOP_K : Nat := 5

/-- `config.reranker.top_k` (`RERANKER_TOP_K`, default 10), the fallback for
a falsy `top_k` argument. -/
def RERANKER_DEFAULT_TOP_K : Nat := 10

/-- Stable insertion for a descending sort by score: Python's
`list.sort(key=score, reverse=True)` keeps the original relative order of
equal scores, so a new element goes after every existing element with a
greater-or-equal score. -/
def insertStableDesc (p : Doc × ℚ) : List (Doc × ℚ) → List (Doc × ℚ)
  | [] => [p]
  | q :: qs => if q.2 ≥ p.2 then q :: insertStableDesc p qs else p :: q :: qs

/-- Stable descending sort by score. -/
def sortByScoreDesc (l : List (Doc × ℚ)) : List (Doc × ℚ) :=
  l.foldl (fun acc p => insertStableDesc p acc) []

/-- `BGEReranker.rerank`, parameterised by the cross-encoder scoring
collaborator (`FlagReranker.compute_score`), which either returns one score
per document or throws.  An empty document list short-circuits; a falsy
(`None`-or-zero) `top_k` falls back to the re-ranker's configured default;
a throwing scorer is caught and the Stage-1 order is returned truncated to
`top_k` with a `0.0` placeholder score. -/
def rerank (score : String → List Doc → Except String (List ℚ))
    (query : String) (documents : List Doc) (top_k : Option Nat) : List (Doc × ℚ) :=
  if documents.isEmpty then []
  else
    let tk := match top_k with
      | some n => if n = 0 then RERANKER_DEFAULT_TOP_K else n
      | none => RERANKER_DEFAULT_TOP_K
    match score query documents with
    | .ok scores => (sortByScoreDesc (documents.zip scores)).take tk
    | .error _ => (documents.take tk).map (fun d => (d, (0 : ℚ)))

/-- `RetrievalRerankAgent.retrieve_and_rerank`: embed the query, run Stage-1
vector search with `top_k = 20`, return empty when Stage-1 is empty, else
re-rank the Stage-1 documents with `top_k = rerank_top_k = 5`. -/
def retrieve_and_rerank (normalize : Vec → Vec)
    (score : String → List Doc → Except String (List ℚ))
    (embed : String → Vec) (store : VectorStoreState) (query : String) :
    List (Doc × ℚ) :=
  let initial := search normalize store (embed query) RETRIEVAL_TOP_K
  if initial.isEmpty then []
  else rerank score query (initial.map Prod.fst) (some RERANK_TOP_K)

/-- C4: when Stage-1 retrieval is non-empty and the re-ranker's scoring
throws, `retrieve_and_rerank` returns the Stage-1 candidates in their
original order, truncated to `rerank_top_k`, each with the placeholder score
`0.0`. -/
theorem retrieve_and_rerank_scorer_failure
    (normalize : Vec → Vec) (score : String → List Doc → Except String (List ℚ))
    (embed : String → Vec) (store : VectorStoreState) (query : String) (msg : String)
    (hne : search normalize store (embed query) RETRIEVAL_TOP_K ≠ [])
    (hthrow : score query ((search normalize store (embed query) RETRIEVAL_TOP_K).map Prod.fst) =
      .error msg) :
    retrieve_and_rerank normalize score embed store query =
      (((search normalize store (embed query) RETRIEVAL_TOP_K).map Prod.fst).take
          RERANK_TOP_K).map (fun d => (d, (0 : ℚ))) := by
  have hne' : ((search normalize store (embed query) RETRIEVAL_TOP_K).map Prod.fst).isEmpty =
      false := by
    cases hsr : search normalize store (embed query) RETRIEVAL_TOP_K with
    | nil => exact absurd hsr hne
    | cons a l => simp
  simp [retrieve_and_rerank, rerank, hthrow, hne', List.isEmpty_iff, hne, RERANK_TOP_K]

/-- Witness for C4: a one-vector store, an identity normaliser, and a scorer
that always throws. -/
theorem retrieve_and_rerank_scorer_failure_witness :
    search id { dimension := 1, index := some { d := 1, vectors := [[1]] },
                documents := [{ page_content := "alpha", metadata := [] }] }
        ((fun _ => [(1 : ℚ)]) "q") RETRIEVAL_TOP_K ≠ [] ∧
    retrieve_and_rerank id (fun _ _ => .error "boom") (fun _ => [(1 : ℚ)])
        { dimension := 1, index := some { d := 1, vectors := [[1]] },
          documents := [{ page_content := "alpha", metadata := [] }] } "q" =
      (((search id { dimension := 1, index := some { d := 1, vectors := [[1]] },
                     documents := [{ page_content := "alpha", metadata := [] }] }
          ((fun _ => [(1 : ℚ)]) "q") RETRIEVAL_TOP_K).map Prod.fst).take RERANK_TOP_K).map
        (fun d => (d, (0 : ℚ))) :=
  ⟨by decide,
   retrieve_and_rerank_scorer_failure id (fun _ _ => .error "boom") (fun _ => [(1 : ℚ)])
     { dimension := 1, index := some { d := 1, vectors := [[1]] },
       documents := [{ page_content := "alpha", metadata := [] }] } "q" "boom"
     (by decide) (by rfl)⟩

/-! ## Chat graph nodes (`app/agents/graphs/chat_graph.py`) -/

/-- A conversation turn (`{"role": ..., "content": ...}`). -/
structure Turn where
  role : String
  content : String
deriving DecidableEq, Repr

/-- The `ChatState` carried through the LangGraph workflow (the fields the
combine and tool-execution nodes read or write). -/
structure ChatState where
  query : String
  route : String
  tool_name : Option String
  tool_params : List (String × ParamValue)
  tool_output : Option String
  answer : String
  chat_history : List Turn
  tool_used : Option String
  error : Option String
deriving DecidableEq, Repr

/-- Python truthiness of an optional string: `None` and `""` are falsy. -/
def strTruthy : Option String → Bool
  | none => false
  | some s => !(s = "")

/-- `ChatGraph._tool_execution_node`, parameterised by the
`tool_registry.execute_tool` collaborator.  A falsy tool name short-circuits
to `"No tool specified"`; a throwing tool is caught and its message wrapped
into the `tool_output` string (and `tool_used` is not set). -/
def toolExecutionNode (execTool : String → List (String × ParamValue) → Except String String)
    (s : ChatState) : ChatState :=
  match s.tool_name with
  | none => { s with tool_output := some "No tool specified" }
  | some name =>
    if name = "" then { s with tool_output := some "No tool specified" }
    else
      match execTool name s.tool_params with
      | .ok out => { s with tool_output := some out, tool_used := some name }
      | .error msg => { s with tool_output := some ("Error executing tool: " ++ msg) }

/-- `ChatGraph._combine_results_node`: on the tool route a truthy tool
output becomes the answer; on the both route it is appended to a truthy
answer; then exactly one user turn and one assistant turn are appended to
the chat history. -/
def combineResultsNode (s : ChatState) : ChatState :=
  let answer :=
    if s.route = "tool" ∧ strTruthy s.tool_output then s.tool_output.getD ""
    else if s.route = "both" ∧ strTruthy s.tool_output ∧ s.answer ≠ "" then
      s.answer ++ "\n\n**Additional Information from Tools:**\n" ++ s.tool_output.getD ""
    else s.answer
  { s with answer := answer,
           chat_history := s.chat_history ++
             [{ role := "user", content := s.query },
              { role := "assistant", content := answer }] }

/-- `ChatGraph._route_decision`: the only conditional edge that can enter
the error handler. -/
def routeDecision (s : ChatState) : String :=
  if strTruthy s.error then "error" else s.route

/-- The tool path of the compiled graph after routing: `tool_execution` has
a single unconditional outgoing edge into `combine_results`. -/
def runToolPath (execTool : String → List (String × ParamValue) → Except String String)
    (s : ChatState) : ChatState :=
  combineResultsNode (toolExecutionNode execTool s)

/-- C6: the combine node appends exactly one `(user, query)` turn followed
by exactly one `(assistant, final answer)` turn, and the pre-existing
history is preserved unchanged as a prefix. -/
theorem combine_appends_two_turns (s : ChatState) :
    (combineResultsNode s).chat_history =
      s.chat_history ++
        [{ role := "user", content := s.query },
         { role := "assistant", content := (combineResultsNode s).answer }] ∧
    (combineResultsNode s).query = s.query ∧
    s.chat_history.isPrefixOf (combineResultsNode s).chat_history = true := by
  refine ⟨rfl, rfl, ?_⟩
  simp [List.isPrefixOf_iff_prefix, combineResultsNode]

/-- C10: on the tool route with a named tool and no pending error, a
throwing tool does not propagate and does not produce an error state (so the
error handler is never entered): the tool output is replaced by the
`"Error executing tool: ..."` string, combine runs, and that string becomes
the final answer, recorded in the appended assistant turn. -/
theorem tool_failure_becomes_answer
    (execTool : String → List (String × ParamValue) → Except String String)
    (s : ChatState) (name msg : String)
    (hroute : s.route = "tool") (herr : s.error = none)
    (hname : s.tool_name = some name) (hne : name ≠ "")
    (hthrow : execTool name s.tool_params = .error msg) :
    (runToolPath execTool s).answer = "Error executing tool: " ++ msg ∧
    (runToolPath execTool s).error = none ∧
    routeDecision (toolExecutionNode execTool s) ≠ "error" ∧
    (runToolPath execTool s).chat_history =
      s.chat_history ++
        [{ role := "user", content := s.query },
         { role := "assistant", content := "Error executing tool: " ++ msg }] := by
  have hmsg : ("Error executing tool: " ++ msg) ≠ "" := by
    intro hcon
    have hlen := congrArg String.length hcon
    rw [String.length_append] at hlen
    have h1 : ("Error executing tool: " : String).length = 22 := by decide
    have h2 : ("" : String).length = 0 := by decide
    omega
  have htool : toolExecutionNode execTool s =
      { s with tool_output := some ("Error executing tool: " ++ msg) } := by
    simp [toolExecutionNode, hname, hne, hthrow]
  have hcomb : runToolPath execTool s =
      { s with tool_output := some ("Error executing tool: " ++ msg),
               answer := "Error executing tool: " ++ msg,
               chat_history := s.chat_history ++
                 [{ role := "user", content := s.query },
                  { role := "assistant", content := "Error executing tool: " ++ msg }] } := by
    rw [runToolPath, htool]
    simp [combineResultsNode, hroute, strTruthy, hmsg]
  refine ⟨by rw [hcomb], by rw [hcomb]; exact herr, ?_, by rw [hcomb]⟩
  rw [htool]
  simp [routeDecision, strTruthy, herr, hroute]

/-- Witness for C10: a concrete tool-route state whose tool throws. -/
theorem tool_failure_becomes_answer_witness :
    (runToolPath (fun _ _ => .error "boom")
        { query := "gdp of india", route := "tool", tool_name := some "gdp",
          tool_params := [], tool_output := none, answer := "",
          chat_history := [{ role := "user", content := "hi" },
                           { role := "assistant", content := "hello" }],
          tool_used := none, error := none }).answer = "Error executing tool: " ++ "boom" ∧
    (runToolPath (fun _ _ => .error "boom")
        { query := "gdp of india", route := "tool", tool_name := some "gdp",
          tool_params := [], tool_output := none, answer := "",
          chat_history := [{ role := "user", content := "hi" },
                           { role := "assistant", content := "hello" }],
          tool_used := none, error := none }).error = none ∧
    routeDecision (toolExecutionNode (fun _ _ => .error "boom")
        { query := "gdp of india", route := "tool", tool_name := some "gdp",
          tool_params := [], tool_output := none, answer := "",
          chat_history := [{ role := "user", content := "hi" },
                           { role := "assistant", content := "hello" }],
          tool_used := none, error := none }) ≠ "error" ∧
    (runToolPath (fun _ _ => .error "boom")
        { query := "gdp of india", route := "tool", tool_name := some "gdp",
          tool_params := [], tool_output := none, answer := "",
          chat_history := [{ role := "user", content := "hi" },
                           { role := "assistant", content := "hello" }],
          tool_used := none, error := none }).chat_history =
      [{ role := "user", content := "hi" }, { role := "assistant", content := "hello" }] ++
        [{ role := "user", content := "gdp of india" },
         { role := "assistant", content := "Error executing tool: " ++ "boom" }] :=
  tool_failure_becomes_answer (fun _ _ => .error "boom") _ "gdp" "boom"
    rfl rfl rfl (by decide) rfl

/-! ## Citation extraction (`app/agents/chat/qa_agent.py`) -/

/-- A citation dictionary emitted by `QAAgent._extract_citations`.  (The
Python code renders the score as a 3-decimal string; we carry the score
value itself.)  The `section` key is called `sectionTitle` because `section`
is a Lean keyword. -/
structure Citation where
  chunk_id : String
  page : String
  sectionTitle : String
  preview : String
  relevance_score : ℚ
deriving DecidableEq, Repr

/-- Case-insensitively strip a literal from the front of the input
(`re.IGNORECASE` on the letters of `Chunk`). -/
def stripLiteralCI : List Char → List Char → Option (List Char)
  | [], rest => some rest
  | _, [] => none
  | l :: ls, c :: cs => if c.toLower = l.toLower then stripLiteralCI ls cs else none

/-- Try to match `\[Chunk\s+(\d+)\]` (case-insensitive) at the head of the
input; on success return the captured digit string and the remaining input.
Each greedy token is followed by a disjoint one, so no backtracking
arises. -/
def matchChunkAt (cs : List Char) : Option (String × List Char) :=
  match cs with
  | '[' :: r1 =>
    match stripLiteralCI "Chunk".data r1 with
    | some r2 =>
      let ws := r2.takeWhile pyIsSpace
      let r3 := r2.drop ws.length
      if ws.isEmpty then none
      else
        let ds := r3.takeWhile Char.isDigit
        let r4 := r3.drop ds.length
        if ds.isEmpty then none
        else
          match r4 with
          | ']' :: r5 => some (String.mk ds, r5)
          | _ => none
    | none => none
  | _ => none

/-- `re.findall`: scan left to right, collecting non-overlapping matches and
resuming after each match.  `fuel` bounds the recursion; every step consumes
at least one character, so the input length is ample fuel. -/
def scanRefs : Nat → List Char → List String
  | 0, _ => []
  | _, [] => []
  | fuel + 1, c :: cs =>
    match matchChunkAt (c :: cs) with
    | some (ref, rest) => ref :: scanRefs fuel rest
    | none => scanRefs fuel cs

/-- `re.findall(r'\[Chunk\s+(\d+)\]', answer, re.IGNORECASE)`. -/
def findChunkRefs (answer : String) : List String :=
  scanRefs answer.data.length answer.data

/-- Deduplication of the reference list (Python's `set(chunk_refs)`), kept
in first-occurrence order.  A CPython set iterates in an unspecified order;
every property proved below is insensitive to the order chosen here. -/
def dedupAux (seen : List String) : List String → List String
  | [] => []
  | r :: rs => if r ∈ seen then dedupAux seen rs else r :: dedupAux (r :: seen) rs

/-- First-occurrence-order deduplication. -/
def dedupKeepFirst (l : List String) : List String :=
  dedupAux [] l

/-- The body of the citation loop for one reference: convert to a 0-based
index, keep it only when `0 ≤ idx < len(chunks)`, and build the citation
with the page/section metadata and a 200-character preview. -/
def citationFor (chunks : List (Doc × ℚ)) (ref : String) : Option Citation :=
  let n := refToNat ref
  if 0 ≤ (n : Int) - 1 ∧ (n : Int) - 1 < (chunks.length : Int) then
    match chunks.get? (n - 1) with
    | some dc =>
      some { chunk_id := ref,
             page := metadataGet dc.1.metadata "page" "N/A",
             sectionTitle := metadataGet dc.1.metadata "section" "N/A",
             preview := dc.1.page_content.take 200,
             relevance_score := dc.2 }
    | none => none
  else none

/-- `QAAgent._extract_citations`. -/
def extract_citations (answer : String) (chunks : List (Doc × ℚ)) : List Citation :=
  (dedupKeepFirst (findChunkRefs answer)).filterMap (citationFor chunks)

/-- `filterMap` produces one output per input whose image is `some`. -/
theorem length_filterMap_eq_length_filter {α β : Type} (f : α → Option β) (p : α → Bool)
    (h : ∀ a, (f a).isSome = p a) (l : List α) :
    (l.filterMap f).length = (l.filter p).length := by
  induction l with
  | nil => rfl
  | cons a t ih =>
    have ha := h a
    cases hfa : f a with
    | none =>
      rw [hfa] at ha
      simp [List.filterMap_cons, hfa, List.filter_cons, ← ha, ih]
    | some b =>
      rw [hfa] at ha
      simp [List.filterMap_cons, hfa, List.filter_cons, ← ha, ih]

/-- A reference survives the citation loop exactly when its value `N`
satisfies `1 ≤ N ≤ L`. -/
theorem citationFor_isSome (chunks : List (Doc × ℚ)) (r : String) :
    (citationFor chunks r).isSome =
      (decide (1 ≤ refToNat r) && decide (refToNat r ≤ chunks.length)) := by
  by_cases h : 0 ≤ (refToNat r : Int) - 1 ∧ (refToNat r : Int) - 1 < (chunks.length : Int)
  · have h1 : 1 ≤ refToNat r := by omega
    have h2 : refToNat r ≤ chunks.length := by omega
    cases hget : chunks.get? (refToNat r - 1) with
    | none =>
      have := List.get?_eq_none.mp hget
      omega
    | some dc =>
      simp only [citationFor]
      rw [if_pos h, hget]
      simp [h1, h2]
  · by_cases h1 : 1 ≤ refToNat r
    · have h2 : ¬ refToNat r ≤ chunks.length := by omega
      simp [citationFor, h, h2]
      omega
    · simp [citationFor, h, h1]

/-- Scenario D's answer text. -/
def scenarioAnswer : String :=
  "Margins improved [Chunk 2] while risk costs fell [Chunk 7]."

/-- Scenario D's five context chunks. -/
def scenarioChunks : List (Doc × ℚ) :=
  [({ page_content := "Alpha content.", metadata := [] }, 5),
   ({ page_content := "Beta content.", metadata := [] }, 4),
   ({ page_content := "Gamma content.", metadata := [] }, 3),
   ({ page_content := "Delta content.", metadata := [] }, 2),
   ({ page_content := "Epsilon content.", metadata := [] }, 1)]

set_option maxRecDepth 8000 in
set_option maxHeartbeats 1000000 in
/-- C7: the extractor emits one citation per distinct bracketed reference
whose number `N` satisfies `1 ≤ N ≤ L` (out-of-range references are
silently dropped); every emitted citation previews the first 200 characters
of the referenced passage; and Scenario D — an answer citing chunks 2 and 7
against 5 passages — yields exactly the one citation for index 2. -/
theorem extract_citations_spec :
    (∀ (answer : String) (chunks : List (Doc × ℚ)),
      (extract_citations answer chunks).length =
        ((dedupKeepFirst (findChunkRefs answer)).filter
          (fun r => decide (1 ≤ refToNat r) && decide (refToNat r ≤ chunks.length))).length) ∧
    (∀ (answer : String) (chunks : List (Doc × ℚ)) (c : Citation),
      c ∈ extract_citations answer chunks →
        1 ≤ refToNat c.chunk_id ∧ refToNat c.chunk_id ≤ chunks.length ∧
        ∃ d score, chunks.get? (refToNat c.chunk_id - 1) = some (d, score) ∧
          c.preview = d.page_content.take 200) ∧
    extract_citations scenarioAnswer scenarioChunks =
      [{ chunk_id := "2", page := "N/A", sectionTitle := "N/A",
         preview := "Beta content.", relevance_score := 4 }] := by
  refine ⟨?_, ?_, by decide⟩
  · intro answer chunks
    exact length_filterMap_eq_length_filter _ _ (citationFor_isSome chunks) _
  · intro answer chunks c hc
    rw [extract_citations, List.mem_filterMap] at hc
    obtain ⟨r, _, hfr⟩ := hc
    rw [citationFor] at hfr
    split at hfr
    · rename_i h
      cases hget : chunks.get? (refToNat r - 1) with
      | none =>
        rw [hget] at hfr
        exact absurd hfr (by simp)
      | some dc =>
        rw [hget] at hfr
        have heq : _ = c := Option.some.inj hfr
        subst heq
        refine ⟨?_, ?_, dc.1, dc.2, ?_, ?_⟩
        · show 1 ≤ refToNat r
          omega
        · show refToNat r ≤ chunks.length
          omega
        · show chunks.get? (refToNat r - 1) = some (dc.1, dc.2)
          rw [hget]
        · dsimp only
    · exact absurd hfr (by simp)

end UIAgentic
